import Mathlib

/-!
Shallow embedding of the world model of `example2.py` (sustainablelab/kurt_pygame_examples):
the pixel/grid coordinate transform (`Xfm.pg` / `Xfm.gp`), the tile map with collision
flags (`TileMap.make_tiles`, `TileMap.add_tile`), the player's grid movement and
collision check (`Player.move_up` / `move_left` / `move_down` / `move_right`,
`Player.is_collision`), the level menu (`LevelMenu.move_up` / `move_down`), and the
state-machine pieces around loading levels (`Game.open_load_menu`, `Game.load`,
`Game.save`).  Machine integers are modelled as `Int`/`Nat`; Python float division
followed by `round` is modelled as exact rational division followed by
round-half-to-even, which agrees with CPython on every input whose quotient's distance
to a half-integer exceeds the float representation error (all inputs considered here).
-/

namespace Kurt

/-- Python 3 `round(a / b)` on integers `a : ℤ`, `b : ℕ`, `0 < b`, computed with exact
integer arithmetic: round the exact quotient `a / b` to the nearest integer, ties going
to the even integer (banker's rounding, the behavior of CPython's `round` on floats at
representable halves; here `/` and `%` on `ℤ` are Euclidean, so for `0 < b` the value
`a / b` is the floor of the quotient and `a % b` its nonnegative remainder). -/
def pyRoundDiv (a : ℤ) (b : ℕ) : ℤ :=
  if 2 * (a % (b : ℤ)) < (b : ℤ) then a / (b : ℤ)
  else if (b : ℤ) < 2 * (a % (b : ℤ)) then a / (b : ℤ) + 1
  else if (a / (b : ℤ)) % 2 = 0 then a / (b : ℤ) else a / (b : ℤ) + 1

/-- Embedding of `Xfm.pg`: pixel-space point to world-space (grid) point,
`(round(p[0]/tile_size), round(p[1]/tile_size))`. -/
def pg (tile_size : ℕ) (p : ℤ × ℤ) : ℤ × ℤ :=
  (pyRoundDiv p.1 tile_size, pyRoundDiv p.2 tile_size)

/-- Embedding of `Xfm.gp`: world-space (grid) point to pixel-space point,
`(p[0]*tile_size, p[1]*tile_size)`. -/
def gp (tile_size : ℕ) (p : ℤ × ℤ) : ℤ × ℤ :=
  (p.1 * (tile_size : ℤ), p.2 * (tile_size : ℤ))

/-- One tile record, as stored by `TileMap.add_tile`:
`{'rect': {'topleft': …, 'size': …}, 'color': (r,g,b), 'collides': …}`. -/
structure Tile where
  topleft : ℤ × ℤ
  size : ℤ × ℤ
  color : ℕ × ℕ × ℕ
  collides : Bool
deriving DecidableEq, Repr

/-- The tile map `TileMap.tiles`: a Python dict from name strings to tile records,
modelled as an insertion-ordered association list with unique keys. -/
abbrev TileMapT := List (String × Tile)

/-- Tile naming used throughout the source: `f"({x},{y})"`. -/
def tileName (p : ℤ × ℤ) : String :=
  "(" ++ toString p.1 ++ "," ++ toString p.2 ++ ")"

/-- Dict lookup `self.tiles[name]` guarded by `name in self.tiles`. -/
def lookupTile (tiles : TileMapT) (name : String) : Option Tile :=
  (tiles.find? (fun q => q.1 = name)).map (fun q => q.2)

/-- Embedding of `TileMap.add_tile` (dict assignment `self.tiles[name] = …`):
replaces the record in place when the key exists, else appends. -/
def add_tile (tiles : TileMapT) (name : String) (t : Tile) : TileMapT :=
  if tiles.any (fun q => q.1 = name) then
    tiles.map (fun q => if q.1 = name then (name, t) else q)
  else tiles ++ [(name, t)]

/-- The four grid cells occupied by the 2×2 player at `pos`:
topleft, topright, bottomleft, bottomright. -/
def occupied_cells (pos : ℤ × ℤ) : List (ℤ × ℤ) :=
  [(pos.1, pos.2), (pos.1 + 1, pos.2), (pos.1, pos.2 + 1), (pos.1 + 1, pos.2 + 1)]

/-- Collision test for a single cell: a tile named for the cell exists and
its `collides` flag is set; a missing tile never collides. -/
def cell_collides (tiles : TileMapT) (c : ℤ × ℤ) : Bool :=
  match lookupTile tiles (tileName c) with
  | some t => t.collides
  | none => false

/-- Embedding of `Player.is_collision`: any of the four occupied cells collides. -/
def is_collision (tiles : TileMapT) (pos : ℤ × ℤ) : Bool :=
  (occupied_cells pos).any (cell_collides tiles)

/-- Embedding of `Player.move_up`: decrement y, then revert if colliding. -/
def move_up (tiles : TileMapT) (pos : ℤ × ℤ) : ℤ × ℤ :=
  let p := (pos.1, pos.2 - 1)
  if is_collision tiles p then pos else p

/-- Embedding of `Player.move_left`. -/
def move_left (tiles : TileMapT) (pos : ℤ × ℤ) : ℤ × ℤ :=
  let p := (pos.1 - 1, pos.2)
  if is_collision tiles p then pos else p

/-- Embedding of `Player.move_down`. -/
def move_down (tiles : TileMapT) (pos : ℤ × ℤ) : ℤ × ℤ :=
  let p := (pos.1, pos.2 + 1)
  if is_collision tiles p then pos else p

/-- Embedding of `Player.move_right`. -/
def move_right (tiles : TileMapT) (pos : ℤ × ℤ) : ℤ × ℤ :=
  let p := (pos.1 + 1, pos.2)
  if is_collision tiles p then pos else p

/-- The four movement commands. -/
inductive Dir | up | down | left | right
deriving DecidableEq, Repr

/-- Tentative position: one grid unit from `pos` along the axis of `d`,
as computed by the first line of each `Player.move_*`. -/
def tentative (d : Dir) (pos : ℤ × ℤ) : ℤ × ℤ :=
  match d with
  | .up => (pos.1, pos.2 - 1)
  | .down => (pos.1, pos.2 + 1)
  | .left => (pos.1 - 1, pos.2)
  | .right => (pos.1 + 1, pos.2)

/-- Dispatch of a movement command to the source's `Player.move_*` procedures. -/
def moveDir (d : Dir) (tiles : TileMapT) (pos : ℤ × ℤ) : ℤ × ℤ :=
  match d with
  | .up => move_up tiles pos
  | .down => move_down tiles pos
  | .left => move_left tiles pos
  | .right => move_right tiles pos

/-- Modelled from the spec: `Player.attempt_move(direction, tilemap) -> bool`, the
spec's interface for the move procedures (the source's `move_*` return `None`);
returns the new position together with whether the move was committed. -/
def attempt_move (d : Dir) (tiles : TileMapT) (pos : ℤ × ℤ) : (ℤ × ℤ) × Bool :=
  let p := tentative d pos
  if is_collision tiles p then (pos, false) else (p, true)

theorem cell_collides_iff (tiles : TileMapT) (c : ℤ × ℤ) :
    cell_collides tiles c = true ↔
      ∃ t, lookupTile tiles (tileName c) = some t ∧ t.collides = true := by
  unfold cell_collides
  cases h : lookupTile tiles (tileName c) with
  | none => simp
  | some t => simp

/-- C1: a movement command computes a tentative position one grid unit from the
current position along the requested axis; if any of the four occupied cells at the
tentative position holds a tile with `collides = true` the position is left unchanged
and the move is rejected (`attempt_move` reports `false`), otherwise the tentative
position is committed and the move reports `true`; cells with no tile never collide. -/
theorem move_commits_iff_no_collision (d : Dir) (tiles : TileMapT) (pos : ℤ × ℤ) :
    ((tentative d pos).1 - pos.1).natAbs + ((tentative d pos).2 - pos.2).natAbs = 1
    ∧ moveDir d tiles pos =
        (if is_collision tiles (tentative d pos) then pos else tentative d pos)
    ∧ attempt_move d tiles pos = (moveDir d tiles pos, ! is_collision tiles (tentative d pos))
    ∧ (is_collision tiles (tentative d pos) = true ↔
        ∃ c ∈ occupied_cells (tentative d pos),
          ∃ t, lookupTile tiles (tileName c) = some t ∧ t.collides = true) := by
  refine ⟨?_, ?_, ?_, ?_⟩
  · cases d <;> simp [tentative]
  · cases d <;> simp [tentative, moveDir, move_up, move_down, move_left, move_right]
  · cases d <;>
      simp only [tentative, moveDir, move_up, move_down, move_left, move_right,
        attempt_move] <;>
      split <;> simp_all
  · simp only [is_collision, List.any_eq_true]
    constructor
    · rintro ⟨c, hc, hcoll⟩
      exact ⟨c, hc, (cell_collides_iff tiles c).mp hcoll⟩
    · rintro ⟨c, hc, hcoll⟩
      exact ⟨c, hc, (cell_collides_iff tiles c).mpr hcoll⟩

theorem pyRoundDiv_spec (a : ℤ) (b : ℕ) (hb : 0 < b) :
    |(pyRoundDiv a b : ℚ) - (a : ℚ) / (b : ℚ)| ≤ 1/2
    ∧ ((a : ℚ) / (b : ℚ) - (⌊(a : ℚ) / (b : ℚ)⌋ : ℚ) = 1/2 → pyRoundDiv a b % 2 = 0) := by
  have hb0 : ((b : ℕ) : ℚ) ≠ 0 := Nat.cast_ne_zero.mpr hb.ne'
  have hbq : (0 : ℚ) < (b : ℚ) := by exact_mod_cast hb
  have hbz : (0 : ℤ) < (b : ℤ) := by exact_mod_cast hb
  set n : ℤ := a / (b : ℤ) with hn
  set r : ℤ := a % (b : ℤ) with hr
  have hdm : (b : ℤ) * n + r = a := Int.ediv_add_emod a b
  have hr0 : 0 ≤ r := Int.emod_nonneg a hbz.ne'
  have hrb : r < (b : ℤ) := Int.emod_lt_of_pos a hbz
  have hr0q : (0 : ℚ) ≤ (r : ℚ) := by exact_mod_cast hr0
  have hrbq : (r : ℚ) < (b : ℚ) := by exact_mod_cast hrb
  have hcast : (a : ℚ) = (b : ℚ) * (n : ℚ) + (r : ℚ) := by exact_mod_cast hdm.symm
  have hq : (a : ℚ) / (b : ℚ) = (n : ℚ) + (r : ℚ) / (b : ℚ) := by
    rw [hcast, add_div, mul_div_cancel_left₀ _ hb0]
  have hfl : ⌊(a : ℚ) / (b : ℚ)⌋ = n := by
    rw [Rat.floor_intCast_div_natCast]
  constructor
  · unfold pyRoundDiv
    rw [← hr, ← hn, hq]
    split_ifs with h1 h2 h3
    · have h1q : 2 * (r : ℚ) < (b : ℚ) := by exact_mod_cast h1
      have e : (n : ℚ) - ((n : ℚ) + (r : ℚ) / (b : ℚ)) = -((r : ℚ) / (b : ℚ)) := by ring
      rw [e, abs_neg, abs_of_nonneg (div_nonneg hr0q hbq.le), div_le_iff₀ hbq]
      linarith
    · have h2q : (b : ℚ) < 2 * (r : ℚ) := by exact_mod_cast h2
      have e : ((n + 1 : ℤ) : ℚ) - ((n : ℚ) + (r : ℚ) / (b : ℚ))
          = 1 - (r : ℚ) / (b : ℚ) := by push_cast; ring
      rw [e, abs_le]
      have hu : (r : ℚ) / (b : ℚ) ≤ 1 := by rw [div_le_one hbq]; exact hrbq.le
      have hl : (1 : ℚ) / 2 ≤ (r : ℚ) / (b : ℚ) := by
        rw [div_le_div_iff₀ two_pos hbq]; linarith
      constructor <;> linarith
    all_goals
      have htie : 2 * r = (b : ℤ) := by omega
      have htq : (r : ℚ) / (b : ℚ) = 1 / 2 := by
        rw [div_eq_div_iff hb0 (by norm_num : (2 : ℚ) ≠ 0)]
        have : 2 * (r : ℚ) = (b : ℚ) := by exact_mod_cast htie
        linarith
    · have e : (n : ℚ) - ((n : ℚ) + (r : ℚ) / (b : ℚ)) = -((r : ℚ) / (b : ℚ)) := by ring
      rw [e, abs_neg, htq]
      norm_num [abs_of_nonneg]
    · have e : ((n + 1 : ℤ) : ℚ) - ((n : ℚ) + (r : ℚ) / (b : ℚ))
          = 1 - (r : ℚ) / (b : ℚ) := by push_cast; ring
      rw [e, htq]
      norm_num [abs_of_nonneg]
  · intro htie
    rw [hfl, hq] at htie
    have htq : (r : ℚ) / (b : ℚ) = 1 / 2 := by
      have : (n : ℚ) + (r : ℚ) / (b : ℚ) - (n : ℚ) = (r : ℚ) / (b : ℚ) := by ring
      rw [this] at htie
      exact htie
    have h2r : 2 * r = (b : ℤ) := by
      have : 2 * (r : ℚ) = (b : ℚ) := by
        rw [div_eq_div_iff hb0 (by norm_num : (2 : ℚ) ≠ 0)] at htq
        linarith
      exact_mod_cast this
    unfold pyRoundDiv
    rw [← hr, ← hn]
    split_ifs with h1 h2 h3
    · omega
    · omega
    · exact h3
    · omega

theorem pyRoundDiv_mul_cancel (a : ℤ) (b : ℕ) (hb : 0 < b) : pyRoundDiv (a * b) b = a := by
  have hbz : ((b : ℕ) : ℤ) ≠ 0 := by exact_mod_cast hb.ne'
  have hbp : (0 : ℤ) < (b : ℤ) := by exact_mod_cast hb
  have hmod : a * (b : ℤ) % (b : ℤ) = 0 := Int.mul_emod_left a (b : ℤ)
  have hdiv : a * (b : ℤ) / (b : ℤ) = a := Int.mul_ediv_cancel a hbz
  unfold pyRoundDiv
  rw [hmod, hdiv]
  simp [hbp]

/-- C6: once a point is snapped to the grid by `gp`, the `pg` / `gp` round trip is the
identity on it: `gp (pg (gp p)) = gp p` for a positive tile size (in fact `pg` is a
left inverse of `gp`). -/
theorem gp_pg_gp (tile_size : ℕ) (p : ℤ × ℤ) (h : 0 < tile_size) :
    gp tile_size (pg tile_size (gp tile_size p)) = gp tile_size p := by
  have h1 : pg tile_size (gp tile_size p) = p := by
    unfold pg gp
    simp [pyRoundDiv_mul_cancel _ _ h]
  rw [h1]

/-- Witness for C6 at tile_size 50, p = (3,2). -/
theorem gp_pg_gp_witness :
    0 < 50 ∧ Kurt.gp 50 (Kurt.pg 50 (Kurt.gp 50 (3, 2))) = Kurt.gp 50 (3, 2) :=
  ⟨by decide, gp_pg_gp 50 (3, 2) (by decide)⟩

/-- C3 counterexample: with tile_size 50 the code maps pixel point (125,75) to grid
point (2,2) (Python 3 `round` sends 2.5 to 2), not to (3,2) as the claim states. -/
theorem pg_125_75_counterexample :
    pg 50 (125, 75) = (2, 2) ∧ pg 50 (125, 75) ≠ (3, 2) := by decide

/-- C3 corrected: `pg` divides each coordinate by tile_size and rounds to the nearest
integer, but ties round half to even (Python 3 banker's rounding), not half away from
zero; in particular `pg 50 (125,75) = (2,2)`. -/
theorem pg_rounds_half_to_even (tile_size : ℕ) (p : ℤ × ℤ) (h : 0 < tile_size) :
    |((pg tile_size p).1 : ℚ) - (p.1 : ℚ) / (tile_size : ℚ)| ≤ 1/2
    ∧ |((pg tile_size p).2 : ℚ) - (p.2 : ℚ) / (tile_size : ℚ)| ≤ 1/2
    ∧ ((p.1 : ℚ) / (tile_size : ℚ) - (⌊(p.1 : ℚ) / (tile_size : ℚ)⌋ : ℚ) = 1/2 →
        (pg tile_size p).1 % 2 = 0)
    ∧ ((p.2 : ℚ) / (tile_size : ℚ) - (⌊(p.2 : ℚ) / (tile_size : ℚ)⌋ : ℚ) = 1/2 →
        (pg tile_size p).2 % 2 = 0)
    ∧ pg 50 (125, 75) = (2, 2) :=
  ⟨(pyRoundDiv_spec p.1 tile_size h).1, (pyRoundDiv_spec p.2 tile_size h).1,
   (pyRoundDiv_spec p.1 tile_size h).2, (pyRoundDiv_spec p.2 tile_size h).2,
   by decide⟩

/-- Witness for C3 at tile_size 50, p = (125,75): the first coordinate is an exact tie
(125/50 = 2.5) and the result 2 is even. -/
theorem pg_rounds_half_to_even_witness :
    (125 : ℚ) / (50 : ℚ) - (⌊(125 : ℚ) / (50 : ℚ)⌋ : ℚ) = 1/2
    ∧ (Kurt.pg 50 (125, 75)).1 % 2 = 0 := by
  have htie : (125 : ℚ) / (50 : ℚ) - (⌊(125 : ℚ) / (50 : ℚ)⌋ : ℚ) = 1/2 := by
    have h1 : ((125 : ℤ) : ℚ) / ((50 : ℕ) : ℚ) = (125 : ℚ) / (50 : ℚ) := by norm_num
    have h2 : ⌊(125 : ℚ) / (50 : ℚ)⌋ = 2 := by
      rw [← h1, Rat.floor_intCast_div_natCast]
      decide
    rw [h2]
    norm_num
  exact ⟨htie, (pg_rounds_half_to_even 50 (125, 75) (by decide)).2.2.1 htie⟩

/-- Embedding of `LevelMenu.move_up`: `selected = max(0, selected - 1)`. -/
def menu_move_up (selected : ℤ) : ℤ := max 0 (selected - 1)

/-- Embedding of `LevelMenu.move_down`: `selected = min(num_levels - 1, selected + 1)`
where `num_levels = len(game.level_names)`. -/
def menu_move_down (num_levels : ℕ) (selected : ℤ) : ℤ :=
  min ((num_levels : ℤ) - 1) (selected + 1)

/-- C7 counterexample: when the level list is empty (`num_levels = 0`, a reachable
state: the menu opens on a directory with no matching files), `move_down` sets the
index to `min(-1, 1) = -1`, leaving the claimed range `[0, num_levels - 1]`. -/
theorem menu_move_down_empty_counterexample :
    menu_move_down 0 0 = -1 ∧ ¬ (0 ≤ menu_move_down 0 0) := by decide

/-- C7 corrected: provided the level list is non-empty, `selected_index` stays within
`[0, num_levels - 1]`: `move_up` sets it to `max(0, selected - 1)` and `move_down` to
`min(num_levels - 1, selected + 1)`, each a no-op at its boundary, with no wraparound;
with an empty list `move_down` escapes to `-1`. -/
theorem menu_selected_bounded (num_levels : ℕ) (selected : ℤ)
    (hn : 1 ≤ num_levels) (h0 : 0 ≤ selected) (h1 : selected ≤ (num_levels : ℤ) - 1) :
    (0 ≤ menu_move_up selected ∧ menu_move_up selected ≤ (num_levels : ℤ) - 1)
    ∧ (0 ≤ menu_move_down num_levels selected
        ∧ menu_move_down num_levels selected ≤ (num_levels : ℤ) - 1)
    ∧ (selected = 0 → menu_move_up selected = selected)
    ∧ (selected = (num_levels : ℤ) - 1 → menu_move_down num_levels selected = selected) := by
  unfold menu_move_up menu_move_down
  refine ⟨⟨?_, ?_⟩, ⟨?_, ?_⟩, ?_, ?_⟩ <;> omega

/-- Witness for C7 at num_levels = 2, selected = 1. -/
theorem menu_selected_bounded_witness :
    0 ≤ Kurt.menu_move_up 1 ∧ Kurt.menu_move_up 1 ≤ (2 : ℤ) - 1 :=
  (menu_selected_bounded 2 1 (by decide) (by decide) (by decide)).1

/-- Embedding of `Game.state`: `'play'` or `'choose level'`. -/
inductive Mode | play | chooseLevel
deriving DecidableEq, Repr

/-- The slice of `Game` state that the level-menu state machine reads and writes:
the mode string, the tile map, the scanned level-name list and the menu index. -/
structure GameState where
  mode : Mode
  tiles : TileMapT
  level_names : List String
  selected : ℤ
deriving DecidableEq, Repr

/-- The filename filter in `Game.open_load_menu`:
`name.startswith("level") and name.endswith("json")`. -/
def level_name_ok (name : String) : Bool :=
  name.startsWith "level" && name.endsWith "json"

/-- Embedding of `Game.open_load_menu`: sets `state = 'choose level'`, then lists the
`levels` directory and keeps the matching names in `level_names`.  `listing = none`
models the directory being absent, in which case `os.listdir` raises
`FileNotFoundError`, which no caller catches: the program crashes (result `none`).
The menu's `selected` index is not touched. -/
def open_load_menu (g : GameState) (listing : Option (List String)) : Option GameState :=
  match listing with
  | none => none
  | some files =>
      some { g with mode := Mode.chooseLevel, level_names := files.filter level_name_ok }

/-- Python list indexing `l[i]`: a negative index counts from the end; an index out of
range raises `IndexError` (modelled as `none`). -/
def pyListGet {α : Type} (l : List α) (i : ℤ) : Option α :=
  if 0 ≤ i then l.get? i.toNat
  else if 0 ≤ i + (l.length : ℤ) then l.get? (i + (l.length : ℤ)).toNat else none

/-- Embedding of `Game.load`: evaluates `self.level_names[self.level_menu.selected]`
(an uncaught `IndexError`, modelled `none`, when out of range) and only logs it; the
source comment `LEFT OFF HERE` marks the missing effect, so on success neither the
tile map nor the state changes. -/
def load (g : GameState) : Option GameState :=
  match pyListGet g.level_names g.selected with
  | none => none
  | some _ => some g

/-- C8 counterexample: `open_load_menu` applied with the menu index at 2 leaves it at
2; the command performs no reset of `selected_index`. -/
theorem open_load_menu_no_reset_counterexample :
    (open_load_menu { mode := Mode.play, tiles := [], level_names := [], selected := 2 }
        (some ["level1.json"])).map (fun g => g.selected) = some 2
    ∧ (open_load_menu { mode := Mode.play, tiles := [], level_names := [], selected := 2 }
        (some ["level1.json"])).map (fun g => g.selected) ≠ some 0 := by
  exact ⟨rfl, by decide⟩

/-- C8 corrected: in state Play the open-level-menu command scans the level directory,
keeps the names starting with "level" and ending with "json" as the level list, and
transitions to ChooseLevel; it leaves `selected_index` unchanged (it is 0 from
construction and only ChooseLevel navigation can move it), rather than resetting it. -/
theorem open_load_menu_effect (g : GameState) (files : List String) :
    ∃ g', open_load_menu g (some files) = some g'
      ∧ g'.mode = Mode.chooseLevel
      ∧ g'.selected = g.selected
      ∧ g'.tiles = g.tiles
      ∧ g'.level_names = files.filter level_name_ok
      ∧ (∀ n, n ∈ g'.level_names ↔
            (n ∈ files ∧ n.startsWith "level" = true ∧ n.endsWith "json" = true)) := by
  refine ⟨_, rfl, rfl, rfl, rfl, rfl, ?_⟩
  intro n
  simp [level_name_ok, List.mem_filter, Bool.and_eq_true, and_assoc]

/-- C9 counterexample: when the scan finds no `levels` directory, `os.listdir` raises
an uncaught `FileNotFoundError` and the program crashes (`none`): no state with an
empty level list is entered. -/
theorem open_load_menu_missing_dir_counterexample :
    open_load_menu { mode := Mode.play, tiles := [], level_names := [], selected := 0 }
      none = none := rfl

/-- C9 corrected: an empty level list arises when the directory exists but its listing
contains no matching level files; then the menu is still entered (state ChooseLevel)
and shows nothing, with the in-memory tile map and menu index untouched.  A missing
directory instead crashes the program with an uncaught `FileNotFoundError`. -/
theorem open_load_menu_empty_scan (g : GameState) (files : List String)
    (h : files.filter level_name_ok = []) :
    ∃ g', open_load_menu g (some files) = some g'
      ∧ g'.mode = Mode.chooseLevel
      ∧ g'.level_names = []
      ∧ g'.tiles = g.tiles
      ∧ g'.selected = g.selected :=
  ⟨_, rfl, rfl, h, rfl, rfl⟩

/-- Witness for C9 at a directory whose listing is empty. -/
theorem open_load_menu_empty_scan_witness :
    ∃ g', Kurt.open_load_menu
        { mode := Mode.play, tiles := [], level_names := [], selected := 0 }
        (some []) = some g'
      ∧ g'.mode = Mode.chooseLevel
      ∧ g'.level_names = []
      ∧ g'.tiles = []
      ∧ g'.selected = 0 :=
  open_load_menu_empty_scan
    { mode := Mode.play, tiles := [], level_names := [], selected := 0 } [] rfl

/-- C2: the confirm command (`K_RETURN` in `'choose level'`) calls `Game.load`, which
only logs the selected name: the tile map is not replaced and the state remains
`'choose level'` — the source marks the load effect as not implemented
(`LEFT OFF HERE`, and the module docstring's unchecked `[ ] load tilemap level from
file`).  Evaluated at a concrete choose-level state with one level selected. -/
theorem confirm_load_is_stub :
    load { mode := Mode.chooseLevel,
           tiles := [("(0,0)",
             { topleft := (0, 0), size := (50, 50), color := (255, 200, 0),
               collides := true })],
           level_names := ["level1.json"], selected := 0 }
      = some { mode := Mode.chooseLevel,
               tiles := [("(0,0)",
                 { topleft := (0, 0), size := (50, 50), color := (255, 200, 0),
                   collides := true })],
               level_names := ["level1.json"], selected := 0 } := rfl

theorem pyListGet_nil {α : Type} (i : ℤ) : pyListGet ([] : List α) i = none := by
  unfold pyListGet
  split_ifs <;> simp

/-- C10: the confirm command's lookup `level_names[selected]` is the embedded
Option-valued access; on the reachable state where the scan produced an empty list it
returns `none` for every index, so `load` produces no successor state (no load, no
transition); and for a nonnegative index the access succeeds exactly when the list is
non-empty and the index is below its length. -/
theorem load_lookup_bounds (g : GameState) (l : List String) (i : ℤ) :
    (g.level_names = [] → load g = none)
    ∧ ((pyListGet l i).isSome = true → l ≠ [])
    ∧ (0 ≤ i → ((pyListGet l i).isSome = true ↔ (l ≠ [] ∧ i < (l.length : ℤ)))) := by
  refine ⟨?_, ?_, ?_⟩
  · intro he
    unfold load
    rw [he, pyListGet_nil]
  · intro hs
    rintro rfl
    rw [pyListGet_nil] at hs
    simp at hs
  · intro hi
    unfold pyListGet
    rw [if_pos hi]
    have key : (l.get? i.toNat).isSome = true ↔ i.toNat < l.length := by
      constructor
      · intro hs
        by_contra hlt
        rw [List.get?_eq_none.mpr (by omega)] at hs
        simp at hs
      · intro hlt
        rw [List.get?_eq_get hlt]
        rfl
    rw [key]
    constructor
    · intro hlt
      refine ⟨?_, by omega⟩
      rintro rfl
      simp at hlt
    · intro hand
      omega

/-- Witness for C10: a concrete empty-list state and a concrete in-bounds lookup. -/
theorem load_lookup_bounds_witness :
    Kurt.load { mode := Mode.chooseLevel, tiles := [], level_names := [], selected := 0 }
      = none
    ∧ ((Kurt.pyListGet ["level1.json"] 0).isSome = true
        ↔ ((["level1.json"] : List String) ≠ []
            ∧ (0 : ℤ) < ((["level1.json"] : List String).length : ℤ))) :=
  ⟨(load_lookup_bounds
      { mode := Mode.chooseLevel, tiles := [], level_names := [], selected := 0 }
      ["level1.json"] 0).1 rfl,
   (load_lookup_bounds
      { mode := Mode.chooseLevel, tiles := [], level_names := [], selected := 0 }
      ["level1.json"] 0).2.2 (by decide)⟩

/-- Embedding of the `make_wall_vertical` helper inside `TileMap.make_tiles`: a tile
at pixel position `(x, tile_size*n)` for each `n = 0 .. num_tiles-1`, each named by
its grid position `xfm.pg(topleft)`, with `size = (tile_size, tile_size)`. -/
def make_wall_vertical (tiles : TileMapT) (color : ℕ × ℕ × ℕ) (tile_size : ℕ) (x : ℤ)
    (num_tiles : ℕ) (collides : Bool) : TileMapT :=
  (List.range num_tiles).foldl
    (fun acc n =>
      let topleft : ℤ × ℤ := (x, ((tile_size * n : ℕ) : ℤ))
      add_tile acc (tileName (pg tile_size topleft))
        { topleft := topleft, size := ((tile_size : ℤ), (tile_size : ℤ)),
          color := color, collides := collides })
    tiles

/-- Embedding of the `make_wall_horizontal` helper inside `TileMap.make_tiles`. -/
def make_wall_horizontal (tiles : TileMapT) (color : ℕ × ℕ × ℕ) (tile_size : ℕ) (y : ℤ)
    (num_tiles : ℕ) (collides : Bool) : TileMapT :=
  (List.range num_tiles).foldl
    (fun acc n =>
      let topleft : ℤ × ℤ := (((tile_size * n : ℕ) : ℤ), y)
      add_tile acc (tileName (pg tile_size topleft))
        { topleft := topleft, size := ((tile_size : ℤ), (tile_size : ℤ)),
          color := color, collides := collides })
    tiles

/-- `math.ceil(a / b)` for natural `a` and positive natural `b`. -/
def ceilDiv (a b : ℕ) : ℕ := (a + b - 1) / b

/-- Embedding of `TileMap.make_tiles`: start from an empty dict (`self.tiles = {}`)
and add the west, east, north and south walls in that order, all colliding, with the
source's four wall colors. -/
def make_tiles (window_width window_height tile_size : ℕ) : TileMapT :=
  let left : ℤ := 0
  let top : ℤ := 0
  let right : ℤ := (window_width : ℤ) - (tile_size : ℤ)
  let bottom : ℤ := (window_height : ℤ) - (tile_size : ℤ)
  let t1 := make_wall_vertical [] (255, 200, 0) tile_size left
      (ceilDiv window_height tile_size) true
  let t2 := make_wall_vertical t1 (0, 200, 0) tile_size right
      (ceilDiv window_height tile_size) true
  let t3 := make_wall_horizontal t2 (0, 200, 200) tile_size top
      (ceilDiv window_width tile_size) true
  make_wall_horizontal t3 (255, 0, 200) tile_size bottom
      (ceilDiv window_width tile_size) true

set_option maxRecDepth 4000 in
/-- C5: rebuilding the TileMap for an 800×450 window with tile_size 50 (starting from
the cleared mapping) yields exactly 9 tiles on the west wall (pixel x = 0), 9 on the
east wall (x = 750), 16 on the north wall (y = 0) and 16 on the south wall (y = 400),
every one flagged `collides = true`. -/
theorem make_tiles_border_800_450 :
    ((make_tiles 800 450 50).filter (fun q => q.2.topleft.1 == 0)).length = 9
    ∧ ((make_tiles 800 450 50).filter (fun q => q.2.topleft.1 == 750)).length = 9
    ∧ ((make_tiles 800 450 50).filter (fun q => q.2.topleft.2 == 0)).length = 16
    ∧ ((make_tiles 800 450 50).filter (fun q => q.2.topleft.2 == 400)).length = 16
    ∧ (make_tiles 800 450 50).all (fun q => q.2.collides) = true := by decide

/-- One record of the persisted level document (§6 of the spec): a field may be
absent in a malformed file, and numeric fields are unconstrained integers until
validated. -/
structure DocRecord where
  rect_topleft : Option (ℤ × ℤ)
  rect_size : Option (ℤ × ℤ)
  color : Option (ℤ × ℤ × ℤ)
  collides : Option Bool
deriving DecidableEq, Repr

/-- The persisted level document: the key → record mapping written by `json.dump`. -/
abbrev Document := List (String × DocRecord)

/-- Embedding of the per-tile shape written by `Game.save` (`json.dump` of
`tile_map.tiles`): the record stored by `add_tile`, written out field by field. -/
def serializeTile (t : Tile) : DocRecord :=
  { rect_topleft := some t.topleft
    rect_size := some t.size
    color := some ((t.color.1 : ℤ), (t.color.2.1 : ℤ), (t.color.2.2 : ℤ))
    collides := some t.collides }

/-- Embedding of `Game.save`: the on-disk document has the same key → record shape as
the in-memory mapping. -/
def serialize (m : TileMapT) : Document :=
  m.map (fun q => (q.1, serializeTile q.2))

/-- Modelled from the spec: `deserialize` is absent from the source (`Game.load` is a
stub), so its per-record validation follows §4.2: fail with `MalformedLevelError`
if the record is missing `rect.topleft`, `rect.size`, `color` or `collides`, or a
color component is outside 0–255, or a size component is not a positive integer. -/
def deserializeTile (r : DocRecord) : Except String Tile :=
  match r.rect_topleft, r.rect_size, r.color, r.collides with
  | some tl, some sz, some c, some b =>
      if 0 < sz.1 ∧ 0 < sz.2
          ∧ 0 ≤ c.1 ∧ c.1 ≤ 255 ∧ 0 ≤ c.2.1 ∧ c.2.1 ≤ 255
          ∧ 0 ≤ c.2.2 ∧ c.2.2 ≤ 255 then
        Except.ok { topleft := tl, size := sz,
                    color := (c.1.toNat, c.2.1.toNat, c.2.2.toNat), collides := b }
      else Except.error "MalformedLevelError"
  | _, _, _, _ => Except.error "MalformedLevelError"

/-- Modelled from the spec: `deserialize(document) -> TileMap`, the inverse of
serialize; validates the records in order and fails on the first malformed one. -/
def deserialize : Document → Except String TileMapT
  | [] => Except.ok []
  | (k, r) :: d =>
      match deserializeTile r, deserialize d with
      | Except.ok t, Except.ok m => Except.ok ((k, t) :: m)
      | Except.error e, _ => Except.error e
      | Except.ok _, Except.error e => Except.error e

/-- A tile is well-formed per the data model (§3/§6): positive size components and
8-bit color components. -/
def ValidTile (t : Tile) : Prop :=
  0 < t.size.1 ∧ 0 < t.size.2
  ∧ t.color.1 ≤ 255 ∧ t.color.2.1 ≤ 255 ∧ t.color.2.2 ≤ 255

instance (t : Tile) : Decidable (ValidTile t) := by
  unfold ValidTile
  infer_instance

/-- A tile map is well-formed when each of its tiles is. -/
def ValidTileMap (m : TileMapT) : Prop := ∀ q ∈ m, ValidTile q.2

instance (m : TileMapT) : Decidable (ValidTileMap m) := by
  unfold ValidTileMap
  exact List.decidableBAll _ m

theorem deserializeTile_serializeTile (t : Tile) (h : ValidTile t) :
    deserializeTile (serializeTile t) = Except.ok t := by
  obtain ⟨h1, h2, h3, h4, h5⟩ := h
  unfold deserializeTile serializeTile
  simp only
  rw [if_pos]
  · simp only [Int.toNat_natCast]
  · refine ⟨h1, h2, ?_, ?_, ?_, ?_, ?_, ?_⟩ <;> omega

theorem deserialize_serialize_of_valid (m : TileMapT) (h : ValidTileMap m) :
    deserialize (serialize m) = Except.ok m := by
  induction m with
  | nil => rfl
  | cons q m ih =>
      have hq : ValidTile q.2 := h q (List.mem_cons_self q m)
      have hm : ValidTileMap m := fun p hp => h p (List.mem_cons_of_mem q hp)
      have step : deserialize (serialize (q :: m)) =
          match deserializeTile (serializeTile q.2), deserialize (serialize m) with
          | Except.ok t, Except.ok l => Except.ok ((q.1, t) :: l)
          | Except.error e, _ => Except.error e
          | Except.ok _, Except.error e => Except.error e := rfl
      rw [step, deserializeTile_serializeTile q.2 hq, ih hm]

theorem validTileMap_add_tile (tiles : TileMapT) (name : String) (t : Tile)
    (h : ValidTileMap tiles) (ht : ValidTile t) :
    ValidTileMap (add_tile tiles name t) := by
  intro p hp
  unfold add_tile at hp
  split at hp
  · obtain ⟨q, hq, hqp⟩ := List.mem_map.mp hp
    by_cases hk : q.1 = name
    · rw [if_pos hk] at hqp
      rw [← hqp]
      exact ht
    · rw [if_neg hk] at hqp
      rw [← hqp]
      exact h q hq
  · rcases List.mem_append.mp hp with hin | hnew
    · exact h p hin
    · have : p = (name, t) := by simpa using hnew
      rw [this]
      exact ht

theorem validTileMap_wall_vertical (tiles : TileMapT) (color : ℕ × ℕ × ℕ)
    (tile_size : ℕ) (x : ℤ) (num_tiles : ℕ) (coll : Bool) (hts : 0 < tile_size)
    (hc : color.1 ≤ 255 ∧ color.2.1 ≤ 255 ∧ color.2.2 ≤ 255)
    (h : ValidTileMap tiles) :
    ValidTileMap (make_wall_vertical tiles color tile_size x num_tiles coll) := by
  unfold make_wall_vertical
  generalize List.range num_tiles = l
  induction l generalizing tiles with
  | nil => exact h
  | cons n l ih =>
      simp only [List.foldl_cons]
      exact ih _ (validTileMap_add_tile _ _ _ h
        ⟨by show (0 : ℤ) < (tile_size : ℤ); exact_mod_cast hts,
         by show (0 : ℤ) < (tile_size : ℤ); exact_mod_cast hts,
         hc.1, hc.2.1, hc.2.2⟩)

theorem validTileMap_wall_horizontal (tiles : TileMapT) (color : ℕ × ℕ × ℕ)
    (tile_size : ℕ) (y : ℤ) (num_tiles : ℕ) (coll : Bool) (hts : 0 < tile_size)
    (hc : color.1 ≤ 255 ∧ color.2.1 ≤ 255 ∧ color.2.2 ≤ 255)
    (h : ValidTileMap tiles) :
    ValidTileMap (make_wall_horizontal tiles color tile_size y num_tiles coll) := by
  unfold make_wall_horizontal
  generalize List.range num_tiles = l
  induction l generalizing tiles with
  | nil => exact h
  | cons n l ih =>
      simp only [List.foldl_cons]
      exact ih _ (validTileMap_add_tile _ _ _ h
        ⟨by show (0 : ℤ) < (tile_size : ℤ); exact_mod_cast hts,
         by show (0 : ℤ) < (tile_size : ℤ); exact_mod_cast hts,
         hc.1, hc.2.1, hc.2.2⟩)

theorem validTileMap_make_tiles (w h ts : ℕ) (hts : 0 < ts) :
    ValidTileMap (make_tiles w h ts) := by
  unfold make_tiles
  refine validTileMap_wall_horizontal _ _ _ _ _ _ hts (by decide) ?_
  refine validTileMap_wall_horizontal _ _ _ _ _ _ hts (by decide) ?_
  refine validTileMap_wall_vertical _ _ _ _ _ _ hts (by decide) ?_
  refine validTileMap_wall_vertical _ _ _ _ _ _ hts (by decide) ?_
  intro p hp
  simp at hp

/-- C4: deserialize is the inverse of serialize on tile maps: for every well-formed
TileMap (positive tile sizes, 8-bit colors — the data model's invariants; keys are
arbitrary strings at the document level), `deserialize (serialize m) = ok m`, and in
particular this holds for every map produced by `make_tiles` with positive tile
size. -/
theorem deserialize_serialize_roundtrip :
    (∀ m : TileMapT, ValidTileMap m → deserialize (serialize m) = Except.ok m)
    ∧ (∀ w h ts : ℕ, 0 < ts →
        deserialize (serialize (make_tiles w h ts)) = Except.ok (make_tiles w h ts)) :=
  ⟨deserialize_serialize_of_valid,
   fun w h ts hts =>
     deserialize_serialize_of_valid (make_tiles w h ts) (validTileMap_make_tiles w h ts hts)⟩

/-- Witness for C4: a concrete one-tile map and a concrete rebuilt map round-trip. -/
theorem deserialize_serialize_roundtrip_witness :
    ValidTileMap [("(0,0)",
      { topleft := (0, 0), size := (50, 50), color := (255, 200, 0), collides := true })]
    ∧ deserialize (serialize [("(0,0)",
        { topleft := (0, 0), size := (50, 50), color := (255, 200, 0),
          collides := true })])
      = Except.ok [("(0,0)",
        { topleft := (0, 0), size := (50, 50), color := (255, 200, 0),
          collides := true })]
    ∧ deserialize (serialize (make_tiles 100 100 50))
      = Except.ok (make_tiles 100 100 50) :=
  ⟨by decide,
   deserialize_serialize_roundtrip.1 _ (by decide),
   deserialize_serialize_roundtrip.2 100 100 50 (by decide)⟩

end Kurt
